import Mathlib

/-!
Verification of the sknlinechart widget (pkg/components/linechart.go).

The widget state `LineChartSkn` and its operations are translated from the Go
source. Go slices become lists, the Go `map[string][]SknChartDatapoint` becomes
an association list with distinct keys (`mapGet` reads like a Go map read,
returning the zero value `[]` for a missing key; `mapSet` updates in place or
inserts, like a Go map assignment). The nil-able `*map` pointer becomes an
`Option`; operations that would dereference a nil pointer return `none`
(a Go panic). float32 coordinates and values are modelled as rationals; the
arithmetic involved is only comparison, clamping and affine mapping.
Errors built with fmt.Errorf are modelled by the inductive `ChartError`
carrying the same data the format strings interpolate.
-/

structure Position where
  x : ℚ
  y : ℚ
deriving DecidableEq

def Position.isZero (p : Position) : Bool :=
  decide (p.x = 0 ∧ p.y = 0)

/-- Modelled from the spec: the datapoint implementation behind the
`SknChartDatapoint` interface (`NewSknDatapoint(value, colorName, timestamp)`
plus the marker-position pair written by `Layout` and read by `MouseMoved`)
is not under src/; the spec describes it as a (value, color, timestamp) tuple
plotted as a vertex, with marker bounds used for hit-testing. -/
structure SknChartDatapoint where
  value : ℚ
  colorName : String
  timestamp : String
  markerTop : Position
  markerBottom : Position
deriving DecidableEq

abbrev DataMap := List (String × List SknChartDatapoint)

/-- Go map read `(*w.dataPoints)[seriesName]`: the zero value `[]` is returned
for a missing key. -/
def mapGet : DataMap → String → List SknChartDatapoint
  | [], _ => []
  | e :: rest, key => if e.1 = key then e.2 else mapGet rest key

/-- Go map assignment `(*w.dataPoints)[seriesName] = points`: update the
binding in place if the key is present, insert it otherwise. -/
def mapSet : DataMap → String → List SknChartDatapoint → DataMap
  | [], key, points => [(key, points)]
  | e :: rest, key, points =>
    if e.1 = key then (key, points) :: rest else e :: mapSet rest key points

/-- Widget state struct from linechart.go (the embedded BaseWidget /
Hoverable / Mouseable interfaces and the `objects` canvas-object cache are
toolkit rendering state with no bearing on the verified behaviour). -/
structure LineChartSkn where
  DataPointXLimit : Nat
  EnableDataPointMarkers : Bool
  EnableHorizGridLines : Bool
  EnableVertGridLines : Bool
  EnableMousePointDisplay : Bool
  TopLeftLabel : String
  TopCenteredLabel : String
  TopRightLabel : String
  LeftMiddleLabel : String
  RightMiddleLabel : String
  BottomLeftLabel : String
  BottomCenteredLabel : String
  BottomRightLabel : String
  mouseDisplayStr : String
  mouseDisplayPosition : Position
  mouseDisplayFrameColor : String
  dataPoints : Option DataMap
  dataPointScale : ℚ × ℚ
  minSize : ℚ × ℚ
deriving DecidableEq

/-- The errors the widget produces with fmt.Errorf, carrying the data that
the corresponding format strings interpolate. -/
inductive ChartError where
  | noActiveWidget
  | limitExceeded (seriesName : String) (limit : Nat) (count : Nat)
  | sizeMismatch (newCount : Nat) (existingCount : Nat)
deriving DecidableEq

/-- Modelled from the spec: `commons.RemoveIndexFromSlice` (pkg/commons is not
under src/) removes the element at the given index; NewSknLineChart documents
its use on index 0 as "truncated leading". -/
def RemoveIndexFromSlice (index : Nat) (slice : List SknChartDatapoint) :
    List SknChartDatapoint :=
  slice.take index ++ slice.drop (index + 1)

/-- The constructor's `for len(points) > dpl` truncation loop. -/
def truncateToLimit (dpl : Nat) (points : List SknChartDatapoint) :
    List SknChartDatapoint :=
  if points.length > dpl then truncateToLimit dpl (RemoveIndexFromSlice 0 points)
  else points
termination_by points.length
decreasing_by
  simp [RemoveIndexFromSlice]
  omega

/-- NewSknLineChart from linechart.go. The Go function mutates the series map
in place while ranging over it (each oversized series is truncated) and builds
the widget around that map; here the per-key updates appear as a pointwise map
over the entries, which is the same thing on a map with distinct keys. The
second component is `true` exactly when the accumulated error is non-nil.
`padding` stands for the toolkit's `theme.Padding()`. -/
def NewSknLineChart (padding : ℚ) (topTitle bottomTitle : String)
    (dataPoints : DataMap) : LineChartSkn × Bool :=
  let dpl := 120
  let truncated := dataPoints.map (fun entry =>
    if entry.2.length > dpl then (entry.1, truncateToLimit dpl entry.2) else entry)
  let err := dataPoints.any (fun entry => decide (entry.2.length > dpl))
  ({ DataPointXLimit := dpl
     EnableDataPointMarkers := true
     EnableHorizGridLines := true
     EnableVertGridLines := true
     EnableMousePointDisplay := true
     TopLeftLabel := "top left desc"
     TopCenteredLabel := topTitle
     TopRightLabel := ""
     LeftMiddleLabel := "left middle desc"
     RightMiddleLabel := "right middle desc"
     BottomLeftLabel := "bottom left desc"
     BottomCenteredLabel := bottomTitle
     BottomRightLabel := "bottom right desc"
     mouseDisplayStr := ""
     mouseDisplayPosition := { x := 0, y := 0 }
     mouseDisplayFrameColor := "foreground"
     dataPoints := some truncated
     dataPointScale := ((120 : ℚ), (110 : ℚ))
     minSize := (400 + padding * 4, 300 + padding * 4) }, err)

def GetTopLeftLabel (w : LineChartSkn) : String := w.TopLeftLabel

def GetTitle (w : LineChartSkn) : String := w.TopCenteredLabel

def IsDataPointMarkersEnabled (w : LineChartSkn) : Bool := w.EnableDataPointMarkers

def IsHorizGridLinesEnabled (w : LineChartSkn) : Bool := w.EnableHorizGridLines

def IsVertGridLinesEnabled (w : LineChartSkn) : Bool := w.EnableVertGridLines

def IsMousePointDisplayEnabled (w : LineChartSkn) : Bool := w.EnableMousePointDisplay

def GetTopRightLabel (w : LineChartSkn) : String := w.TopRightLabel

def GetMiddleLeftLabel (w : LineChartSkn) : String := w.LeftMiddleLabel

def GetMiddleRightLabel (w : LineChartSkn) : String := w.RightMiddleLabel

def GetBottomLeftLabel (w : LineChartSkn) : String := w.BottomLeftLabel

def GetBottomCenteredLabel (w : LineChartSkn) : String := w.BottomCenteredLabel

def GetBottomRightLabel (w : LineChartSkn) : String := w.BottomRightLabel

def SetTopLeftLabel (w : LineChartSkn) (newValue : String) : LineChartSkn :=
  { w with TopLeftLabel := newValue }

def SetTitle (w : LineChartSkn) (newValue : String) : LineChartSkn :=
  { w with TopCenteredLabel := newValue }

def SetTopRightLabel (w : LineChartSkn) (newValue : String) : LineChartSkn :=
  { w with TopRightLabel := newValue }

def SetMiddleLeftLabel (w : LineChartSkn) (newValue : String) : LineChartSkn :=
  { w with LeftMiddleLabel := newValue }

def SetMiddleRightLabel (w : LineChartSkn) (newValue : String) : LineChartSkn :=
  { w with RightMiddleLabel := newValue }

def SetBottomLeftLabel (w : LineChartSkn) (newValue : String) : LineChartSkn :=
  { w with BottomLeftLabel := newValue }

def SetBottomRightLabel (w : LineChartSkn) (newValue : String) : LineChartSkn :=
  { w with BottomRightLabel := newValue }

def SetBottomCenteredLabel (w : LineChartSkn) (newValue : String) : LineChartSkn :=
  { w with BottomCenteredLabel := newValue }

def SetDataPointMarkers (w : LineChartSkn) (enable : Bool) : LineChartSkn :=
  { w with EnableDataPointMarkers := enable }

def SetHorizGridLines (w : LineChartSkn) (enable : Bool) : LineChartSkn :=
  { w with EnableHorizGridLines := enable }

def SetVertGridLines (w : LineChartSkn) (enable : Bool) : LineChartSkn :=
  { w with EnableVertGridLines := enable }

def SetMousePointDisplay (w : LineChartSkn) (enable : Bool) : LineChartSkn :=
  { w with EnableMousePointDisplay := enable }

/-- ReplaceAllDataSeries from linechart.go: reject when the widget has no data
map, when the new map is smaller than the existing one, or when a new series
exceeds the point limit; otherwise install the new map. -/
def ReplaceAllDataSeries (w : LineChartSkn) (newData : DataMap) :
    LineChartSkn × Option ChartError :=
  match w.dataPoints with
  | none => (w, some ChartError.noActiveWidget)
  | some m =>
    if m.length ≤ newData.length then
      match newData.find? (fun entry => decide (entry.2.length > w.DataPointXLimit)) with
      | some entry =>
        (w, some (ChartError.limitExceeded entry.1 w.DataPointXLimit entry.2.length))
      | none => ({ w with dataPoints := some newData }, none)
    else (w, some (ChartError.sizeMismatch newData.length m.length))

/-- ApplyNewDataSeries from linechart.go. The Go `w == nil` receiver guard can
never fire on an actual widget value and has no counterpart here. A nil data
map pointer makes the assignment panic, modelled as `none`. -/
def ApplyNewDataSeries (w : LineChartSkn) (seriesName : String)
    (newSeries : List SknChartDatapoint) :
    Option (LineChartSkn × Option ChartError) :=
  if newSeries.length < w.DataPointXLimit then
    match w.dataPoints with
    | none => none
    | some m => some ({ w with dataPoints := some (mapSet m seriesName newSeries) }, none)
  else
    some (w, some (ChartError.limitExceeded seriesName w.DataPointXLimit newSeries.length))

/-- Modelled from the spec: `commons.ShiftSlice` (pkg/commons is not under
src/). ApplySingleDataPoint documents it as "will shift out the oldest point
if containers limit is exceeded" and the spec as the rolling window that
evicts the oldest point: the head is dropped and the new point appended. -/
def ShiftSlice (newDataPoint : SknChartDatapoint)
    (slice : List SknChartDatapoint) : List SknChartDatapoint :=
  slice.tail ++ [newDataPoint]

/-- ApplySingleDataPoint from linechart.go: append below the limit, shift
otherwise. A nil data map pointer makes the map read panic (`none`). -/
def ApplySingleDataPoint (w : LineChartSkn) (seriesName : String)
    (newDataPoint : SknChartDatapoint) : Option LineChartSkn :=
  match w.dataPoints with
  | none => none
  | some m =>
    if (mapGet m seriesName).length < w.DataPointXLimit then
      some { w with
             dataPoints := some (mapSet m seriesName (mapGet m seriesName ++ [newDataPoint])) }
    else
      some { w with
             dataPoints := some (mapSet m seriesName (ShiftSlice newDataPoint (mapGet m seriesName))) }

inductive MouseButton where
  | primary
  | secondary
  | other

/-- MouseDown from linechart.go: button 2 toggles the markers, button 1
toggles the mouse point display. -/
def MouseDown (w : LineChartSkn) (button : MouseButton) : LineChartSkn :=
  match button with
  | MouseButton.secondary =>
    { w with EnableDataPointMarkers := !w.EnableDataPointMarkers }
  | MouseButton.primary =>
    { w with EnableMousePointDisplay := !w.EnableMousePointDisplay }
  | MouseButton.other => w

/-- The hit test in MouseMoved: both the cursor and the marker top must be
non-zero and the cursor must lie within the marker's top/bottom bounds. -/
def hitTest (me : Position) (point : SknChartDatapoint) : Bool :=
  !me.isZero && !point.markerTop.isZero &&
    decide (point.markerTop.x ≤ me.x) && decide (me.x ≤ point.markerBottom.x) &&
    decide (point.markerTop.y ≤ me.y) && decide (me.y ≤ point.markerBottom.y)

/-- The tooltip text composed by MouseMoved with fmt.Sprint. -/
def mkTooltip (key : String) (idx : Nat) (point : SknChartDatapoint) : String :=
  " Series: " ++ key ++ ", Index: " ++ toString idx ++ ", Value: " ++
    toString point.value ++ " [ " ++ point.timestamp ++ " ]"

/-- enableMouseContainer from linechart.go. `measure` stands for the
toolkit's `fyne.MeasureText` and `pad` for `theme.Padding()`. -/
def enableMouseContainer (measure : String → ℚ × ℚ) (pad : ℚ)
    (value frameColor : String) (mousePosition : Position)
    (w : LineChartSkn) : LineChartSkn :=
  let parts := value.splitOn ("[")
  let ts := measure (parts.headD value)
  { w with
    mouseDisplayStr := value
    mouseDisplayFrameColor := frameColor
    mouseDisplayPosition :=
      { x := mousePosition.x - ts.1 / 2, y := mousePosition.y - 3 * ts.2 - pad } }

/-- One iteration of MouseMoved's inner loop over the indexed points of a
series. -/
def mouseHitStep (measure : String → ℚ × ℚ) (pad : ℚ) (me : Position)
    (key : String) (acc : LineChartSkn) (ip : Nat × SknChartDatapoint) :
    LineChartSkn :=
  if hitTest me ip.2 then
    enableMouseContainer measure pad (mkTooltip key ip.1 ip.2) ip.2.colorName me acc
  else acc

/-- MouseMoved's scan of one series. -/
def mouseScanSeries (measure : String → ℚ × ℚ) (pad : ℚ) (me : Position)
    (key : String) (points : List SknChartDatapoint) (acc : LineChartSkn) :
    LineChartSkn :=
  points.enum.foldl (mouseHitStep measure pad me key) acc

/-- MouseMoved from linechart.go: a no-op unless the mouse point display is
enabled, otherwise every data point of every series is hit-tested against the
cursor and each hit rewrites the tooltip. Dereferences the data map
(`none` on a nil pointer). -/
def MouseMoved (measure : String → ℚ × ℚ) (pad : ℚ) (me : Position)
    (w : LineChartSkn) : Option LineChartSkn :=
  if !w.EnableMousePointDisplay then some w
  else
    match w.dataPoints with
    | none => none
    | some m =>
      some (m.foldl
        (fun acc entry => mouseScanSeries measure pad me entry.1 entry.2 acc) w)

/-- The value clamp in the data-point loop of the renderer's Layout. -/
def clampToScale (scaleHeight : ℚ) (value : ℚ) : ℚ :=
  if value > scaleHeight then scaleHeight
  else if value < 0 then 0
  else value

/-- The vertex coordinates computed for one series by the data-point loop of
Layout: `xx = xp + idx * xScale`, `yy = yp - dp * yScale` with `dp` the
clamped value. -/
def layoutSeriesVertices (xp yp xScale yScale scaleHeight : ℚ)
    (data : List SknChartDatapoint) : List (ℚ × ℚ) :=
  data.enum.map (fun ip =>
    (xp + (ip.1 : ℚ) * xScale, yp - clampToScale scaleHeight ip.2.value * yScale))

/-- Every series currently held by the widget is within the 120-point rolling
window. -/
def seriesBounded (w : LineChartSkn) : Bool :=
  match w.dataPoints with
  | none => true
  | some m => m.all (fun entry => decide (entry.2.length ≤ 120))

/-- The public data-mutation calls, for stating the preservation of
`seriesBounded` under arbitrary call sequences. -/
inductive ChartOp where
  | replaceAll (newData : DataMap)
  | applyNew (seriesName : String) (newSeries : List SknChartDatapoint)
  | applySingle (seriesName : String) (newDataPoint : SknChartDatapoint)

def runOp (w : LineChartSkn) : ChartOp → Option LineChartSkn
  | ChartOp.replaceAll newData => some (ReplaceAllDataSeries w newData).1
  | ChartOp.applyNew n ser => (ApplyNewDataSeries w n ser).map Prod.fst
  | ChartOp.applySingle n p => ApplySingleDataPoint w n p

def runOps (w : LineChartSkn) : List ChartOp → Option LineChartSkn
  | [] => some w
  | op :: ops =>
    match runOp w op with
    | none => none
    | some w2 => runOps w2 ops

theorem mapGet_mapSet_self (m : DataMap) (key : String)
    (points : List SknChartDatapoint) :
    mapGet (mapSet m key points) key = points := by
  induction m with
  | nil => simp [mapSet, mapGet]
  | cons e rest ih =>
    by_cases h : e.1 = key
    · simp [mapSet, mapGet, h]
    · simp [mapSet, mapGet, h, ih]

theorem mem_mapSet {m : DataMap} {key : String} {points : List SknChartDatapoint}
    {e : String × List SknChartDatapoint} (h : e ∈ mapSet m key points) :
    e = (key, points) ∨ e ∈ m := by
  induction m with
  | nil =>
    simp [mapSet] at h
    exact Or.inl h
  | cons a rest ih =>
    by_cases hk : a.1 = key
    · rw [mapSet, if_pos hk] at h
      rcases List.mem_cons.mp h with h2 | h2
      · exact Or.inl h2
      · exact Or.inr (List.mem_cons_of_mem a h2)
    · rw [mapSet, if_neg hk] at h
      rcases List.mem_cons.mp h with h2 | h2
      · exact Or.inr (h2 ▸ List.mem_cons_self a rest)
      · rcases ih h2 with h3 | h3
        · exact Or.inl h3
        · exact Or.inr (List.mem_cons_of_mem a h3)

theorem mapGet_length_le {m : DataMap} {key : String} {n : Nat}
    (h : ∀ e ∈ m, e.2.length ≤ n) : (mapGet m key).length ≤ n := by
  induction m with
  | nil => simp [mapGet]
  | cons a rest ih =>
    rw [mapGet]
    by_cases hk : a.1 = key
    · rw [if_pos hk]
      exact h a (List.mem_cons_self a rest)
    · rw [if_neg hk]
      exact ih (fun e he => h e (List.mem_cons_of_mem a he))

theorem RemoveIndexFromSlice_zero (l : List SknChartDatapoint) :
    RemoveIndexFromSlice 0 l = l.drop 1 := by
  simp [RemoveIndexFromSlice]

theorem truncateToLimit_fuel (dpl n : Nat) :
    ∀ l : List SknChartDatapoint, l.length ≤ n →
      truncateToLimit dpl l = l.drop (l.length - dpl) := by
  induction n with
  | zero =>
    intro l hl
    have hz : l.length = 0 := Nat.le_zero.mp hl
    rw [truncateToLimit, if_neg (by omega)]
    rw [hz, Nat.zero_sub, List.drop_zero]
  | succ n ih =>
    intro l hl
    rw [truncateToLimit]
    by_cases h : l.length > dpl
    · rw [if_pos h, RemoveIndexFromSlice_zero]
      rw [ih (l.drop 1) (by simp; omega)]
      rw [List.drop_drop]
      have harith : 1 + ((l.drop 1).length - dpl) = l.length - dpl := by
        simp
        omega
      rw [harith]
    · rw [if_neg h]
      rw [Nat.sub_eq_zero_of_le (Nat.le_of_not_lt h), List.drop_zero]

theorem truncateToLimit_eq_drop (dpl : Nat) (l : List SknChartDatapoint) :
    truncateToLimit dpl l = l.drop (l.length - dpl) :=
  truncateToLimit_fuel dpl l.length l (Nat.le_refl _)

def samplePoint : SknChartDatapoint :=
  { value := 50
    colorName := "yellow"
    timestamp := "2023-07-01T10:00:00Z"
    markerTop := { x := 0, y := 0 }
    markerBottom := { x := 0, y := 0 } }

def baseChart : LineChartSkn :=
  (NewSknLineChart 4 ("demo title") ("demo footer") []).1

/-- C1 (amended): for a widget whose limit is the default 120 and whose data
map is live, ApplySingleDataPoint appends the point when the named series
holds fewer than 120 points and otherwise evicts the oldest point (index 0)
and appends; the new point is always the final element, and a series that
held at most 120 points before the call still holds at most 120 after. -/
theorem c1_apply_single_data_point (w : LineChartSkn) (m : DataMap)
    (seriesName : String) (p : SknChartDatapoint)
    (hm : w.dataPoints = some m) (hlimit : w.DataPointXLimit = 120) :
    ∃ w2, ApplySingleDataPoint w seriesName p = some w2 ∧
      ∃ m2, w2.dataPoints = some m2 ∧
        mapGet m2 seriesName =
          (if (mapGet m seriesName).length < 120 then mapGet m seriesName ++ [p]
           else (mapGet m seriesName).tail ++ [p]) ∧
        (mapGet m2 seriesName).getLast? = some p ∧
        ((mapGet m seriesName).length ≤ 120 →
          (mapGet m2 seriesName).length ≤ 120) := by
  by_cases hlen : (mapGet m seriesName).length < 120
  · refine ⟨{ w with
        dataPoints := some (mapSet m seriesName (mapGet m seriesName ++ [p])) },
      ?_, mapSet m seriesName (mapGet m seriesName ++ [p]), rfl, ?_, ?_, ?_⟩
    · simp only [ApplySingleDataPoint, hm, hlimit]
      rw [if_pos hlen]
    · rw [mapGet_mapSet_self, if_pos hlen]
    · rw [mapGet_mapSet_self]
      exact List.getLast?_concat _
    · intro _
      rw [mapGet_mapSet_self]
      simp only [List.length_append, List.length_cons, List.length_nil]
      omega
  · refine ⟨{ w with
        dataPoints := some (mapSet m seriesName (ShiftSlice p (mapGet m seriesName))) },
      ?_, mapSet m seriesName (ShiftSlice p (mapGet m seriesName)), rfl, ?_, ?_, ?_⟩
    · simp only [ApplySingleDataPoint, hm, hlimit]
      rw [if_neg hlen]
    · rw [mapGet_mapSet_self, if_neg hlen]
      rfl
    · rw [mapGet_mapSet_self]
      exact List.getLast?_concat _
    · intro hle
      rw [mapGet_mapSet_self]
      simp only [ShiftSlice, List.length_append, List.length_tail,
        List.length_cons, List.length_nil]
      omega

/-- C1 witness: on a one-point series the theorem applies and the appended
point is last. -/
theorem c1_witness :
    ∃ w2, ApplySingleDataPoint { baseChart with
        dataPoints := some [(("a" : String), [samplePoint])] } ("a") samplePoint = some w2 ∧
      ∃ m2, w2.dataPoints = some m2 ∧
        mapGet m2 ("a") =
          (if (mapGet [(("a" : String), [samplePoint])] ("a")).length < 120
           then mapGet [(("a" : String), [samplePoint])] ("a") ++ [samplePoint]
           else (mapGet [(("a" : String), [samplePoint])] ("a")).tail ++ [samplePoint]) ∧
        (mapGet m2 ("a")).getLast? = some samplePoint ∧
        ((mapGet [(("a" : String), [samplePoint])] ("a")).length ≤ 120 →
          (mapGet m2 ("a")).length ≤ 120) :=
  c1_apply_single_data_point
    { baseChart with dataPoints := some [(("a" : String), [samplePoint])] }
    [(("a" : String), [samplePoint])] ("a") samplePoint rfl rfl

set_option maxRecDepth 4000 in
/-- C1 counterexample: a widget state whose series already holds 121 points
still holds 121 points (more than the 120 limit) after ApplySingleDataPoint,
because the shift preserves the length; the claim's "never exceeds 120
points" fails for such a state. -/
theorem c1_counterexample :
    (ApplySingleDataPoint { baseChart with
        dataPoints := some [(("a" : String), List.replicate 121 samplePoint)] }
      ("a") samplePoint).map seriesBounded = some false := by decide

/-- C9: MouseDown with the secondary button inverts the marker flag and keeps
the mouse-display flag and the data; the primary button inverts the
mouse-display flag and keeps the marker flag and the data; a double press of
either button restores the original state. -/
theorem c9_mouse_down_toggles (w : LineChartSkn) :
    (MouseDown w MouseButton.secondary).EnableDataPointMarkers =
      !w.EnableDataPointMarkers ∧
    (MouseDown w MouseButton.secondary).EnableMousePointDisplay =
      w.EnableMousePointDisplay ∧
    (MouseDown w MouseButton.secondary).dataPoints = w.dataPoints ∧
    (MouseDown w MouseButton.primary).EnableMousePointDisplay =
      !w.EnableMousePointDisplay ∧
    (MouseDown w MouseButton.primary).EnableDataPointMarkers =
      w.EnableDataPointMarkers ∧
    (MouseDown w MouseButton.primary).dataPoints = w.dataPoints ∧
    MouseDown (MouseDown w MouseButton.secondary) MouseButton.secondary = w ∧
    MouseDown (MouseDown w MouseButton.primary) MouseButton.primary = w := by
  cases w
  simp [MouseDown, Bool.not_not]

/-- C10: whenever ReplaceAllDataSeries reports an error, the widget — in
particular its data-series map — is exactly as it was before the call. -/
theorem c10_replace_all_atomic (w : LineChartSkn) (newData : DataMap)
    (h : (ReplaceAllDataSeries w newData).2.isSome = true) :
    (ReplaceAllDataSeries w newData).1 = w := by
  rcases hdp : w.dataPoints with _ | m
  · simp [ReplaceAllDataSeries, hdp]
  · by_cases hle : m.length ≤ newData.length
    · rcases hf : newData.find?
          (fun entry => decide (entry.2.length > w.DataPointXLimit)) with _ | entry
      · simp [ReplaceAllDataSeries, hdp, hle, hf] at h
      · simp [ReplaceAllDataSeries, hdp, hle, hf]
    · simp [ReplaceAllDataSeries, hdp, hle]

/-- C10 witness: a widget with no data map errors and is returned intact. -/
theorem c10_witness :
    (ReplaceAllDataSeries { baseChart with dataPoints := none } []).1 =
      { baseChart with dataPoints := none } :=
  c10_replace_all_atomic { baseChart with dataPoints := none } [] rfl

/-- C8: each label setter makes its getter return the set value, and each
toggle setter makes its Is...Enabled getter return the set value, while
every other widget field — the data-series map included — is unchanged. -/
theorem c8_setters_getters (w : LineChartSkn) (v : String) (b : Bool) :
    GetTitle (SetTitle w v) = v ∧
    (SetTitle w v).DataPointXLimit = w.DataPointXLimit ∧
    (SetTitle w v).EnableDataPointMarkers = w.EnableDataPointMarkers ∧
    (SetTitle w v).EnableHorizGridLines = w.EnableHorizGridLines ∧
    (SetTitle w v).EnableVertGridLines = w.EnableVertGridLines ∧
    (SetTitle w v).EnableMousePointDisplay = w.EnableMousePointDisplay ∧
    (SetTitle w v).TopLeftLabel = w.TopLeftLabel ∧
    (SetTitle w v).TopRightLabel = w.TopRightLabel ∧
    (SetTitle w v).LeftMiddleLabel = w.LeftMiddleLabel ∧
    (SetTitle w v).RightMiddleLabel = w.RightMiddleLabel ∧
    (SetTitle w v).BottomLeftLabel = w.BottomLeftLabel ∧
    (SetTitle w v).BottomCenteredLabel = w.BottomCenteredLabel ∧
    (SetTitle w v).BottomRightLabel = w.BottomRightLabel ∧
    (SetTitle w v).mouseDisplayStr = w.mouseDisplayStr ∧
    (SetTitle w v).mouseDisplayPosition = w.mouseDisplayPosition ∧
    (SetTitle w v).mouseDisplayFrameColor = w.mouseDisplayFrameColor ∧
    (SetTitle w v).dataPoints = w.dataPoints ∧
    (SetTitle w v).dataPointScale = w.dataPointScale ∧
    (SetTitle w v).minSize = w.minSize ∧
    GetTopLeftLabel (SetTopLeftLabel w v) = v ∧
    (SetTopLeftLabel w v).DataPointXLimit = w.DataPointXLimit ∧
    (SetTopLeftLabel w v).EnableDataPointMarkers = w.EnableDataPointMarkers ∧
    (SetTopLeftLabel w v).EnableHorizGridLines = w.EnableHorizGridLines ∧
    (SetTopLeftLabel w v).EnableVertGridLines = w.EnableVertGridLines ∧
    (SetTopLeftLabel w v).EnableMousePointDisplay = w.EnableMousePointDisplay ∧
    (SetTopLeftLabel w v).TopCenteredLabel = w.TopCenteredLabel ∧
    (SetTopLeftLabel w v).TopRightLabel = w.TopRightLabel ∧
    (SetTopLeftLabel w v).LeftMiddleLabel = w.LeftMiddleLabel ∧
    (SetTopLeftLabel w v).RightMiddleLabel = w.RightMiddleLabel ∧
    (SetTopLeftLabel w v).BottomLeftLabel = w.BottomLeftLabel ∧
    (SetTopLeftLabel w v).BottomCenteredLabel = w.BottomCenteredLabel ∧
    (SetTopLeftLabel w v).BottomRightLabel = w.BottomRightLabel ∧
    (SetTopLeftLabel w v).mouseDisplayStr = w.mouseDisplayStr ∧
    (SetTopLeftLabel w v).mouseDisplayPosition = w.mouseDisplayPosition ∧
    (SetTopLeftLabel w v).mouseDisplayFrameColor = w.mouseDisplayFrameColor ∧
    (SetTopLeftLabel w v).dataPoints = w.dataPoints ∧
    (SetTopLeftLabel w v).dataPointScale = w.dataPointScale ∧
    (SetTopLeftLabel w v).minSize = w.minSize ∧
    GetTopRightLabel (SetTopRightLabel w v) = v ∧
    (SetTopRightLabel w v).DataPointXLimit = w.DataPointXLimit ∧
    (SetTopRightLabel w v).EnableDataPointMarkers = w.EnableDataPointMarkers ∧
    (SetTopRightLabel w v).EnableHorizGridLines = w.EnableHorizGridLines ∧
    (SetTopRightLabel w v).EnableVertGridLines = w.EnableVertGridLines ∧
    (SetTopRightLabel w v).EnableMousePointDisplay = w.EnableMousePointDisplay ∧
    (SetTopRightLabel w v).TopLeftLabel = w.TopLeftLabel ∧
    (SetTopRightLabel w v).TopCenteredLabel = w.TopCenteredLabel ∧
    (SetTopRightLabel w v).LeftMiddleLabel = w.LeftMiddleLabel ∧
    (SetTopRightLabel w v).RightMiddleLabel = w.RightMiddleLabel ∧
    (SetTopRightLabel w v).BottomLeftLabel = w.BottomLeftLabel ∧
    (SetTopRightLabel w v).BottomCenteredLabel = w.BottomCenteredLabel ∧
    (SetTopRightLabel w v).BottomRightLabel = w.BottomRightLabel ∧
    (SetTopRightLabel w v).mouseDisplayStr = w.mouseDisplayStr ∧
    (SetTopRightLabel w v).mouseDisplayPosition = w.mouseDisplayPosition ∧
    (SetTopRightLabel w v).mouseDisplayFrameColor = w.mouseDisplayFrameColor ∧
    (SetTopRightLabel w v).dataPoints = w.dataPoints ∧
    (SetTopRightLabel w v).dataPointScale = w.dataPointScale ∧
    (SetTopRightLabel w v).minSize = w.minSize ∧
    GetMiddleLeftLabel (SetMiddleLeftLabel w v) = v ∧
    (SetMiddleLeftLabel w v).DataPointXLimit = w.DataPointXLimit ∧
    (SetMiddleLeftLabel w v).EnableDataPointMarkers = w.EnableDataPointMarkers ∧
    (SetMiddleLeftLabel w v).EnableHorizGridLines = w.EnableHorizGridLines ∧
    (SetMiddleLeftLabel w v).EnableVertGridLines = w.EnableVertGridLines ∧
    (SetMiddleLeftLabel w v).EnableMousePointDisplay = w.EnableMousePointDisplay ∧
    (SetMiddleLeftLabel w v).TopLeftLabel = w.TopLeftLabel ∧
    (SetMiddleLeftLabel w v).TopCenteredLabel = w.TopCenteredLabel ∧
    (SetMiddleLeftLabel w v).TopRightLabel = w.TopRightLabel ∧
    (SetMiddleLeftLabel w v).RightMiddleLabel = w.RightMiddleLabel ∧
    (SetMiddleLeftLabel w v).BottomLeftLabel = w.BottomLeftLabel ∧
    (SetMiddleLeftLabel w v).BottomCenteredLabel = w.BottomCenteredLabel ∧
    (SetMiddleLeftLabel w v).BottomRightLabel = w.BottomRightLabel ∧
    (SetMiddleLeftLabel w v).mouseDisplayStr = w.mouseDisplayStr ∧
    (SetMiddleLeftLabel w v).mouseDisplayPosition = w.mouseDisplayPosition ∧
    (SetMiddleLeftLabel w v).mouseDisplayFrameColor = w.mouseDisplayFrameColor ∧
    (SetMiddleLeftLabel w v).dataPoints = w.dataPoints ∧
    (SetMiddleLeftLabel w v).dataPointScale = w.dataPointScale ∧
    (SetMiddleLeftLabel w v).minSize = w.minSize ∧
    GetMiddleRightLabel (SetMiddleRightLabel w v) = v ∧
    (SetMiddleRightLabel w v).DataPointXLimit = w.DataPointXLimit ∧
    (SetMiddleRightLabel w v).EnableDataPointMarkers = w.EnableDataPointMarkers ∧
    (SetMiddleRightLabel w v).EnableHorizGridLines = w.EnableHorizGridLines ∧
    (SetMiddleRightLabel w v).EnableVertGridLines = w.EnableVertGridLines ∧
    (SetMiddleRightLabel w v).EnableMousePointDisplay = w.EnableMousePointDisplay ∧
    (SetMiddleRightLabel w v).TopLeftLabel = w.TopLeftLabel ∧
    (SetMiddleRightLabel w v).TopCenteredLabel = w.TopCenteredLabel ∧
    (SetMiddleRightLabel w v).TopRightLabel = w.TopRightLabel ∧
    (SetMiddleRightLabel w v).LeftMiddleLabel = w.LeftMiddleLabel ∧
    (SetMiddleRightLabel w v).BottomLeftLabel = w.BottomLeftLabel ∧
    (SetMiddleRightLabel w v).BottomCenteredLabel = w.BottomCenteredLabel ∧
    (SetMiddleRightLabel w v).BottomRightLabel = w.BottomRightLabel ∧
    (SetMiddleRightLabel w v).mouseDisplayStr = w.mouseDisplayStr ∧
    (SetMiddleRightLabel w v).mouseDisplayPosition = w.mouseDisplayPosition ∧
    (SetMiddleRightLabel w v).mouseDisplayFrameColor = w.mouseDisplayFrameColor ∧
    (SetMiddleRightLabel w v).dataPoints = w.dataPoints ∧
    (SetMiddleRightLabel w v).dataPointScale = w.dataPointScale ∧
    (SetMiddleRightLabel w v).minSize = w.minSize ∧
    GetBottomLeftLabel (SetBottomLeftLabel w v) = v ∧
    (SetBottomLeftLabel w v).DataPointXLimit = w.DataPointXLimit ∧
    (SetBottomLeftLabel w v).EnableDataPointMarkers = w.EnableDataPointMarkers ∧
    (SetBottomLeftLabel w v).EnableHorizGridLines = w.EnableHorizGridLines ∧
    (SetBottomLeftLabel w v).EnableVertGridLines = w.EnableVertGridLines ∧
    (SetBottomLeftLabel w v).EnableMousePointDisplay = w.EnableMousePointDisplay ∧
    (SetBottomLeftLabel w v).TopLeftLabel = w.TopLeftLabel ∧
    (SetBottomLeftLabel w v).TopCenteredLabel = w.TopCenteredLabel ∧
    (SetBottomLeftLabel w v).TopRightLabel = w.TopRightLabel ∧
    (SetBottomLeftLabel w v).LeftMiddleLabel = w.LeftMiddleLabel ∧
    (SetBottomLeftLabel w v).RightMiddleLabel = w.RightMiddleLabel ∧
    (SetBottomLeftLabel w v).BottomCenteredLabel = w.BottomCenteredLabel ∧
    (SetBottomLeftLabel w v).BottomRightLabel = w.BottomRightLabel ∧
    (SetBottomLeftLabel w v).mouseDisplayStr = w.mouseDisplayStr ∧
    (SetBottomLeftLabel w v).mouseDisplayPosition = w.mouseDisplayPosition ∧
    (SetBottomLeftLabel w v).mouseDisplayFrameColor = w.mouseDisplayFrameColor ∧
    (SetBottomLeftLabel w v).dataPoints = w.dataPoints ∧
    (SetBottomLeftLabel w v).dataPointScale = w.dataPointScale ∧
    (SetBottomLeftLabel w v).minSize = w.minSize ∧
    GetBottomCenteredLabel (SetBottomCenteredLabel w v) = v ∧
    (SetBottomCenteredLabel w v).DataPointXLimit = w.DataPointXLimit ∧
    (SetBottomCenteredLabel w v).EnableDataPointMarkers = w.EnableDataPointMarkers ∧
    (SetBottomCenteredLabel w v).EnableHorizGridLines = w.EnableHorizGridLines ∧
    (SetBottomCenteredLabel w v).EnableVertGridLines = w.EnableVertGridLines ∧
    (SetBottomCenteredLabel w v).EnableMousePointDisplay = w.EnableMousePointDisplay ∧
    (SetBottomCenteredLabel w v).TopLeftLabel = w.TopLeftLabel ∧
    (SetBottomCenteredLabel w v).TopCenteredLabel = w.TopCenteredLabel ∧
    (SetBottomCenteredLabel w v).TopRightLabel = w.TopRightLabel ∧
    (SetBottomCenteredLabel w v).LeftMiddleLabel = w.LeftMiddleLabel ∧
    (SetBottomCenteredLabel w v).RightMiddleLabel = w.RightMiddleLabel ∧
    (SetBottomCenteredLabel w v).BottomLeftLabel = w.BottomLeftLabel ∧
    (SetBottomCenteredLabel w v).BottomRightLabel = w.BottomRightLabel ∧
    (SetBottomCenteredLabel w v).mouseDisplayStr = w.mouseDisplayStr ∧
    (SetBottomCenteredLabel w v).mouseDisplayPosition = w.mouseDisplayPosition ∧
    (SetBottomCenteredLabel w v).mouseDisplayFrameColor = w.mouseDisplayFrameColor ∧
    (SetBottomCenteredLabel w v).dataPoints = w.dataPoints ∧
    (SetBottomCenteredLabel w v).dataPointScale = w.dataPointScale ∧
    (SetBottomCenteredLabel w v).minSize = w.minSize ∧
    GetBottomRightLabel (SetBottomRightLabel w v) = v ∧
    (SetBottomRightLabel w v).DataPointXLimit = w.DataPointXLimit ∧
    (SetBottomRightLabel w v).EnableDataPointMarkers = w.EnableDataPointMarkers ∧
    (SetBottomRightLabel w v).EnableHorizGridLines = w.EnableHorizGridLines ∧
    (SetBottomRightLabel w v).EnableVertGridLines = w.EnableVertGridLines ∧
    (SetBottomRightLabel w v).EnableMousePointDisplay = w.EnableMousePointDisplay ∧
    (SetBottomRightLabel w v).TopLeftLabel = w.TopLeftLabel ∧
    (SetBottomRightLabel w v).TopCenteredLabel = w.TopCenteredLabel ∧
    (SetBottomRightLabel w v).TopRightLabel = w.TopRightLabel ∧
    (SetBottomRightLabel w v).LeftMiddleLabel = w.LeftMiddleLabel ∧
    (SetBottomRightLabel w v).RightMiddleLabel = w.RightMiddleLabel ∧
    (SetBottomRightLabel w v).BottomLeftLabel = w.BottomLeftLabel ∧
    (SetBottomRightLabel w v).BottomCenteredLabel = w.BottomCenteredLabel ∧
    (SetBottomRightLabel w v).mouseDisplayStr = w.mouseDisplayStr ∧
    (SetBottomRightLabel w v).mouseDisplayPosition = w.mouseDisplayPosition ∧
    (SetBottomRightLabel w v).mouseDisplayFrameColor = w.mouseDisplayFrameColor ∧
    (SetBottomRightLabel w v).dataPoints = w.dataPoints ∧
    (SetBottomRightLabel w v).dataPointScale = w.dataPointScale ∧
    (SetBottomRightLabel w v).minSize = w.minSize ∧
    IsDataPointMarkersEnabled (SetDataPointMarkers w b) = b ∧
    (SetDataPointMarkers w b).DataPointXLimit = w.DataPointXLimit ∧
    (SetDataPointMarkers w b).EnableHorizGridLines = w.EnableHorizGridLines ∧
    (SetDataPointMarkers w b).EnableVertGridLines = w.EnableVertGridLines ∧
    (SetDataPointMarkers w b).EnableMousePointDisplay = w.EnableMousePointDisplay ∧
    (SetDataPointMarkers w b).TopLeftLabel = w.TopLeftLabel ∧
    (SetDataPointMarkers w b).TopCenteredLabel = w.TopCenteredLabel ∧
    (SetDataPointMarkers w b).TopRightLabel = w.TopRightLabel ∧
    (SetDataPointMarkers w b).LeftMiddleLabel = w.LeftMiddleLabel ∧
    (SetDataPointMarkers w b).RightMiddleLabel = w.RightMiddleLabel ∧
    (SetDataPointMarkers w b).BottomLeftLabel = w.BottomLeftLabel ∧
    (SetDataPointMarkers w b).BottomCenteredLabel = w.BottomCenteredLabel ∧
    (SetDataPointMarkers w b).BottomRightLabel = w.BottomRightLabel ∧
    (SetDataPointMarkers w b).mouseDisplayStr = w.mouseDisplayStr ∧
    (SetDataPointMarkers w b).mouseDisplayPosition = w.mouseDisplayPosition ∧
    (SetDataPointMarkers w b).mouseDisplayFrameColor = w.mouseDisplayFrameColor ∧
    (SetDataPointMarkers w b).dataPoints = w.dataPoints ∧
    (SetDataPointMarkers w b).dataPointScale = w.dataPointScale ∧
    (SetDataPointMarkers w b).minSize = w.minSize ∧
    IsHorizGridLinesEnabled (SetHorizGridLines w b) = b ∧
    (SetHorizGridLines w b).DataPointXLimit = w.DataPointXLimit ∧
    (SetHorizGridLines w b).EnableDataPointMarkers = w.EnableDataPointMarkers ∧
    (SetHorizGridLines w b).EnableVertGridLines = w.EnableVertGridLines ∧
    (SetHorizGridLines w b).EnableMousePointDisplay = w.EnableMousePointDisplay ∧
    (SetHorizGridLines w b).TopLeftLabel = w.TopLeftLabel ∧
    (SetHorizGridLines w b).TopCenteredLabel = w.TopCenteredLabel ∧
    (SetHorizGridLines w b).TopRightLabel = w.TopRightLabel ∧
    (SetHorizGridLines w b).LeftMiddleLabel = w.LeftMiddleLabel ∧
    (SetHorizGridLines w b).RightMiddleLabel = w.RightMiddleLabel ∧
    (SetHorizGridLines w b).BottomLeftLabel = w.BottomLeftLabel ∧
    (SetHorizGridLines w b).BottomCenteredLabel = w.BottomCenteredLabel ∧
    (SetHorizGridLines w b).BottomRightLabel = w.BottomRightLabel ∧
    (SetHorizGridLines w b).mouseDisplayStr = w.mouseDisplayStr ∧
    (SetHorizGridLines w b).mouseDisplayPosition = w.mouseDisplayPosition ∧
    (SetHorizGridLines w b).mouseDisplayFrameColor = w.mouseDisplayFrameColor ∧
    (SetHorizGridLines w b).dataPoints = w.dataPoints ∧
    (SetHorizGridLines w b).dataPointScale = w.dataPointScale ∧
    (SetHorizGridLines w b).minSize = w.minSize ∧
    IsVertGridLinesEnabled (SetVertGridLines w b) = b ∧
    (SetVertGridLines w b).DataPointXLimit = w.DataPointXLimit ∧
    (SetVertGridLines w b).EnableDataPointMarkers = w.EnableDataPointMarkers ∧
    (SetVertGridLines w b).EnableHorizGridLines = w.EnableHorizGridLines ∧
    (SetVertGridLines w b).EnableMousePointDisplay = w.EnableMousePointDisplay ∧
    (SetVertGridLines w b).TopLeftLabel = w.TopLeftLabel ∧
    (SetVertGridLines w b).TopCenteredLabel = w.TopCenteredLabel ∧
    (SetVertGridLines w b).TopRightLabel = w.TopRightLabel ∧
    (SetVertGridLines w b).LeftMiddleLabel = w.LeftMiddleLabel ∧
    (SetVertGridLines w b).RightMiddleLabel = w.RightMiddleLabel ∧
    (SetVertGridLines w b).BottomLeftLabel = w.BottomLeftLabel ∧
    (SetVertGridLines w b).BottomCenteredLabel = w.BottomCenteredLabel ∧
    (SetVertGridLines w b).BottomRightLabel = w.BottomRightLabel ∧
    (SetVertGridLines w b).mouseDisplayStr = w.mouseDisplayStr ∧
    (SetVertGridLines w b).mouseDisplayPosition = w.mouseDisplayPosition ∧
    (SetVertGridLines w b).mouseDisplayFrameColor = w.mouseDisplayFrameColor ∧
    (SetVertGridLines w b).dataPoints = w.dataPoints ∧
    (SetVertGridLines w b).dataPointScale = w.dataPointScale ∧
    (SetVertGridLines w b).minSize = w.minSize ∧
    IsMousePointDisplayEnabled (SetMousePointDisplay w b) = b ∧
    (SetMousePointDisplay w b).DataPointXLimit = w.DataPointXLimit ∧
    (SetMousePointDisplay w b).EnableDataPointMarkers = w.EnableDataPointMarkers ∧
    (SetMousePointDisplay w b).EnableHorizGridLines = w.EnableHorizGridLines ∧
    (SetMousePointDisplay w b).EnableVertGridLines = w.EnableVertGridLines ∧
    (SetMousePointDisplay w b).TopLeftLabel = w.TopLeftLabel ∧
    (SetMousePointDisplay w b).TopCenteredLabel = w.TopCenteredLabel ∧
    (SetMousePointDisplay w b).TopRightLabel = w.TopRightLabel ∧
    (SetMousePointDisplay w b).LeftMiddleLabel = w.LeftMiddleLabel ∧
    (SetMousePointDisplay w b).RightMiddleLabel = w.RightMiddleLabel ∧
    (SetMousePointDisplay w b).BottomLeftLabel = w.BottomLeftLabel ∧
    (SetMousePointDisplay w b).BottomCenteredLabel = w.BottomCenteredLabel ∧
    (SetMousePointDisplay w b).BottomRightLabel = w.BottomRightLabel ∧
    (SetMousePointDisplay w b).mouseDisplayStr = w.mouseDisplayStr ∧
    (SetMousePointDisplay w b).mouseDisplayPosition = w.mouseDisplayPosition ∧
    (SetMousePointDisplay w b).mouseDisplayFrameColor = w.mouseDisplayFrameColor ∧
    (SetMousePointDisplay w b).dataPoints = w.dataPoints ∧
    (SetMousePointDisplay w b).dataPointScale = w.dataPointScale ∧
    (SetMousePointDisplay w b).minSize = w.minSize := by
  repeat' apply And.intro
  all_goals rfl

theorem seriesBounded_iff {w : LineChartSkn} {m : DataMap}
    (hdp : w.dataPoints = some m) :
    seriesBounded w = true ↔ ∀ e ∈ m, e.2.length ≤ 120 := by
  rw [seriesBounded, hdp]
  simp [List.all_eq_true]

theorem runOp_preserves {w : LineChartSkn} {op : ChartOp} {w2 : LineChartSkn}
    (hlimit : w.DataPointXLimit = 120) (hb : seriesBounded w = true)
    (hrun : runOp w op = some w2) :
    w2.DataPointXLimit = 120 ∧ seriesBounded w2 = true := by
  cases op with
  | replaceAll newData =>
    rcases hdp : w.dataPoints with _ | m
    · simp only [runOp, ReplaceAllDataSeries, hdp, Option.some.injEq] at hrun
      subst hrun
      exact ⟨hlimit, hb⟩
    · by_cases hle : m.length ≤ newData.length
      · rcases hf : newData.find?
            (fun entry => decide (entry.2.length > w.DataPointXLimit)) with _ | entry
        · simp only [runOp, ReplaceAllDataSeries, hdp, if_pos hle, hf,
            Option.some.injEq] at hrun
          subst hrun
          refine ⟨hlimit, ?_⟩
          rw [seriesBounded_iff (m := newData) rfl]
          intro e he
          have hne := List.find?_eq_none.mp hf e he
          rw [hlimit] at hne
          simp only [decide_eq_true_eq] at hne
          omega
        · simp only [runOp, ReplaceAllDataSeries, hdp, if_pos hle, hf,
            Option.some.injEq] at hrun
          subst hrun
          exact ⟨hlimit, hb⟩
      · simp only [runOp, ReplaceAllDataSeries, hdp, if_neg hle,
          Option.some.injEq] at hrun
        subst hrun
        exact ⟨hlimit, hb⟩
  | applyNew seriesName newSeries =>
    by_cases hlt : newSeries.length < w.DataPointXLimit
    · rcases hdp : w.dataPoints with _ | m
      · simp only [runOp, ApplyNewDataSeries, if_pos hlt, hdp,
          Option.map_none'] at hrun
        cases hrun
      · simp only [runOp, ApplyNewDataSeries, if_pos hlt, hdp, Option.map_some',
          Option.some.injEq] at hrun
        subst hrun
        refine ⟨hlimit, ?_⟩
        rw [seriesBounded_iff (m := mapSet m seriesName newSeries) rfl]
        intro e he
        rcases mem_mapSet he with h2 | h2
        · rw [h2]
          rw [hlimit] at hlt
          show newSeries.length ≤ 120
          omega
        · exact (seriesBounded_iff hdp).mp hb e h2
    · simp only [runOp, ApplyNewDataSeries, if_neg hlt, Option.map_some',
        Option.some.injEq] at hrun
      subst hrun
      exact ⟨hlimit, hb⟩
  | applySingle seriesName newDataPoint =>
    rcases hdp : w.dataPoints with _ | m
    · simp only [runOp, ApplySingleDataPoint, hdp] at hrun
      cases hrun
    · have hold : (mapGet m seriesName).length ≤ 120 :=
        mapGet_length_le ((seriesBounded_iff hdp).mp hb)
      by_cases hlt : (mapGet m seriesName).length < w.DataPointXLimit
      · simp only [runOp, ApplySingleDataPoint, hdp, if_pos hlt,
          Option.some.injEq] at hrun
        subst hrun
        refine ⟨hlimit, ?_⟩
        rw [seriesBounded_iff
          (m := mapSet m seriesName (mapGet m seriesName ++ [newDataPoint])) rfl]
        intro e he
        rcases mem_mapSet he with h2 | h2
        · rw [h2]
          rw [hlimit] at hlt
          simp only [List.length_append, List.length_cons, List.length_nil]
          omega
        · exact (seriesBounded_iff hdp).mp hb e h2
      · simp only [runOp, ApplySingleDataPoint, hdp, if_neg hlt,
          Option.some.injEq] at hrun
        subst hrun
        refine ⟨hlimit, ?_⟩
        rw [seriesBounded_iff
          (m := mapSet m seriesName (ShiftSlice newDataPoint (mapGet m seriesName))) rfl]
        intro e he
        rcases mem_mapSet he with h2 | h2
        · rw [h2]
          simp only [ShiftSlice, List.length_append, List.length_tail,
            List.length_cons, List.length_nil]
          omega
        · exact (seriesBounded_iff hdp).mp hb e h2

theorem runOps_preserves {ops : List ChartOp} :
    ∀ {w w2 : LineChartSkn}, w.DataPointXLimit = 120 → seriesBounded w = true →
      runOps w ops = some w2 →
      w2.DataPointXLimit = 120 ∧ seriesBounded w2 = true := by
  induction ops with
  | nil =>
    intro w w2 h1 h2 hrun
    rw [runOps] at hrun
    cases hrun
    exact ⟨h1, h2⟩
  | cons op ops ih =>
    intro w w2 h1 h2 hrun
    rw [runOps] at hrun
    rcases hop : runOp w op with _ | wmid
    · rw [hop] at hrun
      cases hrun
    · rw [hop] at hrun
      rcases runOp_preserves h1 h2 hop with ⟨h3, h4⟩
      exact ih h3 h4 hrun

/-- C2: starting from a widget with the default 120-point limit whose series
are all within the limit, any sequence of ReplaceAllDataSeries,
ApplyNewDataSeries and ApplySingleDataPoint calls that completes leaves every
series of the data map within 120 points. -/
theorem c2_series_bounded_invariant (w : LineChartSkn) (ops : List ChartOp)
    (w2 : LineChartSkn) (hlimit : w.DataPointXLimit = 120)
    (hb : seriesBounded w = true) (hrun : runOps w ops = some w2) :
    seriesBounded w2 = true :=
  (runOps_preserves hlimit hb hrun).2

def c2ops : List ChartOp :=
  [ChartOp.applySingle ("a") samplePoint,
   ChartOp.applyNew ("b") [samplePoint],
   ChartOp.replaceAll [(("c" : String), []), (("d" : String), [samplePoint])]]

set_option maxRecDepth 4000 in
/-- C2 witness: a full 120-point series takes a shift, a new series and a map
replacement and stays bounded. -/
theorem c2_witness :
    seriesBounded { baseChart with
      dataPoints := some [(("c" : String), []), (("d" : String), [samplePoint])] } = true :=
  c2_series_bounded_invariant
    { baseChart with dataPoints := some [(("a" : String), List.replicate 120 samplePoint)] }
    c2ops
    { baseChart with dataPoints := some [(("c" : String), []), (("d" : String), [samplePoint])] }
    rfl (by decide) rfl

/-- C3: NewSknLineChart installs the input map with every oversized series
truncated by repeatedly removing the leading (oldest) point down to exactly
120 points, leaves every series of at most 120 points unchanged, reports a
non-nil error exactly when some series was truncated, and in all cases still
yields a chart holding the (possibly truncated) data. -/
theorem c3_new_skn_line_chart (padding : ℚ) (topTitle bottomTitle : String)
    (m : DataMap) :
    (NewSknLineChart padding topTitle bottomTitle m).1.dataPoints =
      some (m.map (fun entry =>
        if entry.2.length > 120 then (entry.1, truncateToLimit 120 entry.2)
        else entry)) ∧
    (∀ e ∈ m, 120 < e.2.length →
      truncateToLimit 120 e.2 = e.2.drop (e.2.length - 120) ∧
      (truncateToLimit 120 e.2).length = 120) ∧
    (∀ e ∈ m, e.2.length ≤ 120 → truncateToLimit 120 e.2 = e.2) ∧
    ((NewSknLineChart padding topTitle bottomTitle m).2 = true ↔
      ∃ e ∈ m, 120 < e.2.length) := by
  refine ⟨rfl, ?_, ?_, ?_⟩
  · intro e _ hgt
    refine ⟨truncateToLimit_eq_drop 120 e.2, ?_⟩
    rw [truncateToLimit_eq_drop, List.length_drop]
    omega
  · intro e _ hle
    rw [truncateToLimit_eq_drop, Nat.sub_eq_zero_of_le hle, List.drop_zero]
  · simp [NewSknLineChart, List.any_eq_true]

set_option maxRecDepth 4000 in
/-- C3 witness: a 121-point series is truncated to its last 120 points and
the constructor reports the error. -/
theorem c3_witness :
    (truncateToLimit 120 (List.replicate 121 samplePoint) =
      (List.replicate 121 samplePoint).drop
        ((List.replicate 121 samplePoint).length - 120) ∧
      (truncateToLimit 120 (List.replicate 121 samplePoint)).length = 120) ∧
    (NewSknLineChart 4 ("t") ("b")
      [(("a" : String), List.replicate 121 samplePoint)]).2 = true :=
  ⟨(c3_new_skn_line_chart 4 ("t") ("b")
      [(("a" : String), List.replicate 121 samplePoint)]).2.1
      (("a" : String), List.replicate 121 samplePoint) (by decide) (by decide),
   (c3_new_skn_line_chart 4 ("t") ("b")
      [(("a" : String), List.replicate 121 samplePoint)]).2.2.2.mpr
      (by decide)⟩

set_option maxRecDepth 4000 in
/-- C4 (code evaluated at the failing input): a series of exactly 120 points
does not exceed the 120-point limit — ReplaceAllDataSeries accepts it without
error — yet ApplyNewDataSeries rejects it with a limit-exceeded error,
because its guard is the strict `len(newSeries) < limit` where its own doc
comment ("throws error if new series exceeds containers point limit")
promises rejection only beyond the limit. -/
theorem c4_rejects_exactly_120 :
    ApplyNewDataSeries baseChart ("s") (List.replicate 120 samplePoint) =
      some (baseChart, some (ChartError.limitExceeded ("s") 120 120)) ∧
    ¬ 120 < (List.replicate 120 samplePoint).length ∧
    (ReplaceAllDataSeries baseChart
      [(("s" : String), List.replicate 120 samplePoint)]).2 = none :=
  ⟨rfl, by decide, rfl⟩

/-- C5 (amended): each data-mutation call errors exactly under its own
condition — NewSknLineChart when some series has more than 120 points;
ApplyNewDataSeries when the new series has at least DataPointXLimit points
(the limit itself is already rejected); ReplaceAllDataSeries when the widget
has no data map, when the new map has fewer series than the existing one, or
when some new series has more than DataPointXLimit points. -/
theorem c5_error_conditions (w : LineChartSkn) (newData : DataMap)
    (seriesName : String) (newSeries : List SknChartDatapoint) (padding : ℚ)
    (topTitle bottomTitle : String) (m0 : DataMap) :
    ((ReplaceAllDataSeries w newData).2.isSome = true ↔
      (w.dataPoints = none ∨
        ∃ m, w.dataPoints = some m ∧
          (newData.length < m.length ∨
            (m.length ≤ newData.length ∧
              ∃ e ∈ newData, w.DataPointXLimit < e.2.length)))) ∧
    ((∃ r, ApplyNewDataSeries w seriesName newSeries = some r ∧
        r.2.isSome = true) ↔ w.DataPointXLimit ≤ newSeries.length) ∧
    ((NewSknLineChart padding topTitle bottomTitle m0).2 = true ↔
      ∃ e ∈ m0, 120 < e.2.length) := by
  refine ⟨?_, ?_, ?_⟩
  · rcases hdp : w.dataPoints with _ | m
    · simp [ReplaceAllDataSeries, hdp]
    · by_cases hle : m.length ≤ newData.length
      · rcases hf : newData.find?
            (fun entry => decide (entry.2.length > w.DataPointXLimit)) with _ | entry
        · have hnone := List.find?_eq_none.mp hf
          simp only [decide_eq_true_eq] at hnone
          simp only [ReplaceAllDataSeries, hdp, if_pos hle, hf]
          simp only [Option.isSome_none, Bool.false_eq_true, false_iff]
          rintro (h2 | ⟨m2, hm2, h3 | ⟨_, e, he, hlen⟩⟩)
          · cases h2
          · rcases Option.some.injEq m m2 ▸ hm2 with rfl
            omega
          · exact absurd hlen (hnone e he)
        · have hmem := List.mem_of_find?_eq_some hf
          have hpred := List.find?_some hf
          simp only [decide_eq_true_eq] at hpred
          simp only [ReplaceAllDataSeries, hdp, if_pos hle, hf]
          simp only [Option.isSome_some, true_iff]
          exact Or.inr ⟨m, rfl, Or.inr ⟨hle, entry, hmem, hpred⟩⟩
      · simp only [ReplaceAllDataSeries, hdp, if_neg hle]
        simp only [Option.isSome_some, true_iff]
        exact Or.inr ⟨m, rfl, Or.inl (by omega)⟩
  · by_cases hlt : newSeries.length < w.DataPointXLimit
    · rcases hdp : w.dataPoints with _ | m
      · simp only [ApplyNewDataSeries, if_pos hlt, hdp]
        simp
        omega
      · simp only [ApplyNewDataSeries, if_pos hlt, hdp]
        simp
        omega
    · simp only [ApplyNewDataSeries, if_neg hlt]
      simp
      omega
  · simp [NewSknLineChart, List.any_eq_true]

/-- C5 counterexample: with one existing series and an empty replacement map,
ReplaceAllDataSeries returns its "newData must be larger than or equal to
existing" error even though every series involved is far below the 120-point
limit, so not every data-mutation error is a series-exceeds-limit
condition. -/
theorem c5_counterexample :
    (ReplaceAllDataSeries { baseChart with
        dataPoints := some [(("a" : String), [samplePoint])] } []).2.isSome = true ∧
    seriesBounded { baseChart with
        dataPoints := some [(("a" : String), [samplePoint])] } = true ∧
    ([] : DataMap).all (fun e => decide (e.2.length ≤ 120)) = true := by
  decide

/-- C5 witness: a widget with no data map errors on ReplaceAllDataSeries, as
the amended characterization predicts. -/
theorem c5_witness :
    (ReplaceAllDataSeries { baseChart with dataPoints := none } []).2.isSome = true :=
  (c5_error_conditions { baseChart with dataPoints := none } [] ("s") [] 4
    ("t") ("b") []).1.mpr (Or.inl rfl)

theorem mouseHitStep_foldl_str (measure : String → ℚ × ℚ) (pad : ℚ)
    (me : Position) (key : String) :
    ∀ (l : List (Nat × SknChartDatapoint)) (acc : LineChartSkn),
      (l.foldl (mouseHitStep measure pad me key) acc).mouseDisplayStr =
        acc.mouseDisplayStr ∨
      ∃ ip ∈ l, hitTest me ip.2 = true ∧
        (l.foldl (mouseHitStep measure pad me key) acc).mouseDisplayStr =
          mkTooltip key ip.1 ip.2 := by
  intro l
  induction l with
  | nil => intro acc; exact Or.inl rfl
  | cons ip rest ih =>
    intro acc
    rw [List.foldl_cons]
    rcases ih (mouseHitStep measure pad me key acc ip) with h | ⟨ip2, hmem, hhit, heq⟩
    · by_cases hh : hitTest me ip.2 = true
      · refine Or.inr ⟨ip, List.mem_cons_self _ _, hh, ?_⟩
        rw [h]
        simp [mouseHitStep, hh, enableMouseContainer]
      · refine Or.inl ?_
        rw [h]
        simp [mouseHitStep, hh]
    · exact Or.inr ⟨ip2, List.mem_cons_of_mem _ hmem, hhit, heq⟩

theorem mouseScan_foldl_str (measure : String → ℚ × ℚ) (pad : ℚ)
    (me : Position) :
    ∀ (m : DataMap) (acc : LineChartSkn),
      (m.foldl (fun acc2 entry =>
          mouseScanSeries measure pad me entry.1 entry.2 acc2) acc).mouseDisplayStr =
        acc.mouseDisplayStr ∨
      ∃ e ∈ m, ∃ ip ∈ e.2.enum, hitTest me ip.2 = true ∧
        (m.foldl (fun acc2 entry =>
            mouseScanSeries measure pad me entry.1 entry.2 acc2) acc).mouseDisplayStr =
          mkTooltip e.1 ip.1 ip.2 := by
  intro m
  induction m with
  | nil => intro acc; exact Or.inl rfl
  | cons e rest ih =>
    intro acc
    simp only [List.foldl_cons]
    rcases ih (mouseScanSeries measure pad me e.1 e.2 acc) with h |
      ⟨e2, hmem, ip, hip, hhit, heq⟩
    · rcases mouseHitStep_foldl_str measure pad me e.1 e.2.enum acc with h2 |
        ⟨ip, hip, hhit, heq⟩
      · exact Or.inl (by rw [h]; exact h2)
      · exact Or.inr ⟨e, List.mem_cons_self _ _, ip, hip, hhit, by rw [h]; exact heq⟩
    · exact Or.inr ⟨e2, List.mem_cons_of_mem _ hmem, ip, hip, hhit, heq⟩

/-- C6: when the mouse point display is disabled MouseMoved changes nothing
at all; when it is enabled, the tooltip text either stays what it was or is
the description (series name, index, value, timestamp) of some data point
whose marker bounds contain the cursor position — it is set to describe a
point only if the cursor lies within that point's marker rectangle, both
positions being non-zero. -/
theorem c6_mouse_moved (measure : String → ℚ × ℚ) (pad : ℚ) (me : Position)
    (w : LineChartSkn) :
    (w.EnableMousePointDisplay = false → MouseMoved measure pad me w = some w) ∧
    (∀ m w2, w.dataPoints = some m → MouseMoved measure pad me w = some w2 →
      w2.mouseDisplayStr = w.mouseDisplayStr ∨
      ∃ e ∈ m, ∃ ip ∈ e.2.enum, hitTest me ip.2 = true ∧
        w2.mouseDisplayStr = mkTooltip e.1 ip.1 ip.2) := by
  constructor
  · intro hoff
    simp [MouseMoved, hoff]
  · intro m w2 hdp hrun
    cases hon : w.EnableMousePointDisplay with
    | false =>
      simp only [MouseMoved, hon, Bool.not_false, if_pos, Option.some.injEq] at hrun
      subst hrun
      exact Or.inl rfl
    | true =>
      simp only [MouseMoved, hon, Bool.not_true, Bool.false_eq_true, if_false,
        hdp, Option.some.injEq] at hrun
      subst hrun
      exact mouseScan_foldl_str measure pad me m w

def hitPoint : SknChartDatapoint :=
  { value := 42
    colorName := "blue"
    timestamp := "2023-07-01T10:00:05Z"
    markerTop := { x := 1, y := 1 }
    markerBottom := { x := 3, y := 3 } }

def c6measure : String → ℚ × ℚ := fun _ => (0, 0)

def c6on : LineChartSkn :=
  { baseChart with dataPoints := some [(("a" : String), [hitPoint])] }

def c6off : LineChartSkn :=
  { baseChart with EnableMousePointDisplay := false }

def c6res : LineChartSkn :=
  mouseScanSeries c6measure 0 { x := 2, y := 2 } ("a") [hitPoint] c6on

/-- C6 witness: a disabled widget is untouched; on an enabled widget with a
point whose marker rectangle contains the cursor, the conclusion holds for
the computed result state. -/
theorem c6_witness :
    MouseMoved c6measure 0 { x := 2, y := 2 } c6off = some c6off ∧
    (c6res.mouseDisplayStr = c6on.mouseDisplayStr ∨
      ∃ e ∈ [(("a" : String), [hitPoint])], ∃ ip ∈ e.2.enum,
        hitTest { x := 2, y := 2 } ip.2 = true ∧
        c6res.mouseDisplayStr = mkTooltip e.1 ip.1 ip.2) :=
  ⟨(c6_mouse_moved c6measure 0 { x := 2, y := 2 } c6off).1 rfl,
   (c6_mouse_moved c6measure 0 { x := 2, y := 2 } c6on).2
     [(("a" : String), [hitPoint])] c6res rfl rfl⟩

theorem clampToScale_bounds (v : ℚ) :
    0 ≤ clampToScale 110 v ∧ clampToScale 110 v ≤ 110 := by
  unfold clampToScale
  split_ifs <;> constructor <;> linarith

/-- C7: the data-point loop of Layout clamps each value before scaling — a
value above the vertical scale height 110 maps as 110, a negative value maps
as 0, and a value in [0, 110] maps unchanged — so every plotted vertex's
y-coordinate lies between yp - 110 * yScale and yp. -/
theorem c7_layout_clamps (xp yp xScale yScale v : ℚ)
    (data : List SknChartDatapoint) :
    (110 < v → clampToScale 110 v = 110) ∧
    (v < 0 → clampToScale 110 v = 0) ∧
    (0 ≤ v → v ≤ 110 → clampToScale 110 v = v) ∧
    (∀ p ∈ layoutSeriesVertices xp yp xScale yScale 110 data,
      min (yp - 110 * yScale) yp ≤ p.2 ∧ p.2 ≤ max (yp - 110 * yScale) yp) := by
  refine ⟨?_, ?_, ?_, ?_⟩
  · intro h
    rw [clampToScale, if_pos h]
  · intro h
    rw [clampToScale, if_neg (by linarith), if_pos h]
  · intro h0 h1
    rw [clampToScale, if_neg (by linarith), if_neg (by linarith)]
  · intro p hp
    rcases List.mem_map.mp hp with ⟨ip, _, hpe⟩
    rcases clampToScale_bounds ip.2.value with ⟨hc0, hc1⟩
    have hp2 : p.2 = yp - clampToScale 110 ip.2.value * yScale := by
      rw [← hpe]
    rw [hp2]
    rcases le_total 0 yScale with hy | hy
    · constructor
      · have hmul : clampToScale 110 ip.2.value * yScale ≤ 110 * yScale :=
          mul_le_mul_of_nonneg_right hc1 hy
        exact le_trans (min_le_left _ _) (by linarith)
      · have hmul : 0 ≤ clampToScale 110 ip.2.value * yScale :=
          mul_nonneg hc0 hy
        exact le_trans (by linarith) (le_max_right _ _)
    · constructor
      · have hmul : clampToScale 110 ip.2.value * yScale ≤ 0 :=
          mul_nonpos_iff.mpr (Or.inl ⟨hc0, hy⟩)
        exact le_trans (min_le_right _ _) (by linarith)
      · have hmul : 110 * yScale ≤ clampToScale 110 ip.2.value * yScale :=
          mul_le_mul_of_nonpos_right hc1 hy
        exact le_trans (by linarith) (le_max_left _ _)

/-- C7 witness: an oversized value is clamped to 110, and the vertex produced
for a 50-valued point with xp = 0, yp = 0, both scales 1 lies within the
frame bounds. -/
theorem c7_witness :
    clampToScale 110 200 = 110 ∧
    (min ((0 : ℚ) - 110 * 1) 0 ≤ ((0 : ℚ), (0 : ℚ) - 50 * 1).2 ∧
      ((0 : ℚ), (0 : ℚ) - 50 * 1).2 ≤ max ((0 : ℚ) - 110 * 1) 0) :=
  ⟨(c7_layout_clamps 0 0 1 1 200 []).1 (by norm_num),
   (c7_layout_clamps 0 0 1 1 200 [samplePoint]).2.2.2
     ((0 : ℚ), (0 : ℚ) - 50 * 1)
     (by norm_num [layoutSeriesVertices, samplePoint, clampToScale,
        List.enum, List.enumFrom])⟩
